import Mathlib

/-!
Shallow embedding of the scheduling / session / retry core of `src/a.py`
(a Twitter automation bot), together with proofs settling the spec claims.

Conventions of the embedding:
* timestamps and cycle fractions are rationals (`ℚ`); Python `time.time()`
  values and float literals such as `0.95` are taken at face value as
  rationals;
* random draws (`random.randint`, `random.uniform`, `random.choice`) are
  explicit parameters, constrained by hypotheses matching their documented
  ranges;
* tweet texts are modelled as `List Char` (`PyStr`), matching Python's
  code-point string semantics for `len`, slicing and concatenation;
* a Python function that can raise is modelled with `Except`; a `try/except`
  that swallows the exception is modelled by the corresponding value.
-/

namespace K

/-- `CYCLE_TIME = 30 * 3600` (src/a.py line 4369): one 30-hour cycle, in seconds. -/
def CYCLE_TIME : ℚ := 30 * 3600

/-! ## Time window generator (src/a.py lines 4376-4387)

`create_time_windows(num_windows=None)` draws `num_windows ∈ [3,5]` when the
argument is omitted; the draw is passed here as the argument `num_windows`
with range hypotheses stated at the theorems.  The two `random.uniform`
draws of iteration `i` are passed as `u i` and `v i`. -/

/-- Embedding of `create_time_windows` from src/a.py lines 4376-4387.
`u i` stands for `random.uniform(0, day_fraction * 0.4)` and `v i` for
`random.uniform(0.1, 0.15)` of iteration `i`; the Python loop appending to
`windows` is the map over `List.range num_windows`. -/
def create_time_windows (num_windows : ℕ) (u v : ℕ → ℚ) : List (ℚ × ℚ) :=
  let day_fraction : ℚ := 1 / num_windows
  (List.range num_windows).map (fun i =>
    let start := i * day_fraction + u i
    let e := start + v i
    (start, if e > 1 then 1 else e))

/-! ## Activity ledger data model (src/a.py lines 4402-4464)

One `ActionState` per action type; the three day-part flags of
`tweet_analysis` and the per-account fields (`unfollow_done`, `cycle_start`,
`min_action_gap`) live on `Activities`, mirroring the Python dict. -/

/-- One entry of `account_activities[username]`: src/a.py lines 4404-4409. -/
structure ActionState where
  count : ℕ
  limit : ℕ
  windows : List (ℚ × ℚ)
  last_action : ℚ
  deriving Repr, DecidableEq

/-- The per-account activity dict `account_activities[username]`
(src/a.py lines 4402-4464). -/
structure Activities where
  tweets : ActionState
  comments : ActionState
  follows : ActionState
  retweets : ActionState
  tweet_analysis : ActionState
  morning_done : Bool
  afternoon_done : Bool
  evening_done : Bool
  strategy : ActionState
  quote_tweet : ActionState
  comment_likes : ActionState
  contest_tweet : ActionState
  unfollow_done : Bool
  cycle_start : ℚ
  min_action_gap : ℚ
  deriving Repr, DecidableEq

/-- Dictionary lookup `activities[action_type]`.  The default arm is never
reached by the scheduler, which only indexes with the nine literal keys. -/
def Activities.act (a : Activities) (t : String) : ActionState :=
  if t = "tweets" then a.tweets
  else if t = "comments" then a.comments
  else if t = "follows" then a.follows
  else if t = "retweets" then a.retweets
  else if t = "tweet_analysis" then a.tweet_analysis
  else if t = "strategy" then a.strategy
  else if t = "quote_tweet" then a.quote_tweet
  else if t = "comment_likes" then a.comment_likes
  else if t = "contest_tweet" then a.contest_tweet
  else ⟨0, 0, [], 0⟩

/-- The bookkeeping done on success paths of the dispatch step:
`count += n` followed by `last_action = current_time`. -/
def ActionState.bump (s : ActionState) (n : ℕ) (now : ℚ) : ActionState :=
  { s with count := s.count + n, last_action := now }

/-! ## Cycle rollover (src/a.py lines 4520-4558)

The loop header binds `action_type`, but every statement of the body indexes
`activities[activity]`.  The name `activity` is bound nowhere in the whole
program (it occurs only inside this loop body), so CPython raises
`NameError` at the body's first statement `activities[activity]['count'] = 0`
of the first iteration; no counter, limit, window, flag or `cycle_start` is
ever written.  The exception propagates to the `except Exception` handler of
`main` (src/a.py line 4865), terminating the scheduler loop. -/

/-- Embedding of the rollover body, src/a.py lines 4521-4558: it
unconditionally raises `NameError` before performing any write (see the
section comment above for the line-by-line justification). -/
def rollover (_acts : Activities) : Except String Activities :=
  Except.error "NameError: name activity is not defined"

/-- The rollover guard of the scheduler loop, src/a.py lines 4520-4558:
`if cycle_elapsed >= CYCLE_TIME:` followed by the reset body. -/
def rollover_check (now : ℚ) (acts : Activities) : Except String Activities :=
  if CYCLE_TIME ≤ now - acts.cycle_start then rollover acts else Except.ok acts

/-! ## Account eligibility (src/a.py lines 4560-4569) -/

/-- `max([activities[act]['last_action'] for act in ['tweets', 'comments',
'follows', 'retweets', 'tweet_analysis', 'strategy', 'quote_tweet']])`
(src/a.py lines 4561-4562).  Note that `comment_likes` and `contest_tweet`
are absent from the list. -/
def last_any_action (a : Activities) : ℚ :=
  max (max (max (max (max (max a.tweets.last_action a.comments.last_action)
    a.follows.last_action) a.retweets.last_action) a.tweet_analysis.last_action)
    a.strategy.last_action) a.quote_tweet.last_action

/-- The `IDLE → ELIGIBLE` test, src/a.py lines 4563-4566:
`time_since = now - last if last > 0 else float('inf')` and the account is
eligible iff `time_since >= min_action_gap`; the `float('inf')` branch
makes the test vacuous, hence the implication form. -/
def account_eligible (now : ℚ) (a : Activities) : Prop :=
  0 < last_any_action a → a.min_action_gap ≤ now - last_any_action a

instance (now : ℚ) (a : Activities) : Decidable (account_eligible now a) := by
  unfold account_eligible
  infer_instance

/-! ## End-of-cycle unfollow sweep (src/a.py lines 4502-4517 and 4813-4818) -/

/-- The pre-dispatch sweep, src/a.py lines 4502-4517: fires when
`cycle_elapsed >= CYCLE_TIME * 0.95` and the flag is unset; `has_attr` is
the `hasattr(bot, 'unfollow_daily_users')` test and `sweep_ok` the boolean
returned by the sweep (an exception is caught and leaves the state
unchanged, like a `False` return). -/
def pre_sweep (now : ℚ) (acts : Activities) (has_attr sweep_ok : Bool) : Activities :=
  if CYCLE_TIME * 0.95 ≤ now - acts.cycle_start ∧ acts.unfollow_done = false then
    if has_attr ∧ sweep_ok then { acts with unfollow_done := true } else acts
  else acts

/-- The post-dispatch sweep, src/a.py lines 4813-4818: recomputes
`cycle_progress = cycle_elapsed / CYCLE_TIME` and fires at `>= 0.933`. -/
def post_sweep (cycle_elapsed : ℚ) (acts : Activities) (sweep_ok : Bool) : Activities :=
  if (0.933 : ℚ) ≤ cycle_elapsed / CYCLE_TIME ∧ acts.unfollow_done = false then
    if sweep_ok then { acts with unfollow_done := true } else acts
  else acts

/-- The firing condition of the pre-dispatch sweep (src/a.py line 4503). -/
def pre_sweep_triggers (now : ℚ) (acts : Activities) : Prop :=
  CYCLE_TIME * 0.95 ≤ now - acts.cycle_start ∧ acts.unfollow_done = false

/-- The firing condition of the post-dispatch sweep (src/a.py line 4814). -/
def post_sweep_triggers (cycle_elapsed : ℚ) (acts : Activities) : Prop :=
  (0.933 : ℚ) ≤ cycle_elapsed / CYCLE_TIME ∧ acts.unfollow_done = false

/-! ## Retry wrapper `smart_retry` (src/a.py lines 352-367)

The decorated body is
```
retries = 0
while retries < max_retries:
    try:
        return func(self, *args, **kwargs)
    except Exception as e:
        retries += 1
        time.sleep(retry_delay * (2 ** (retries - 1)) * (0.5 + random.random()))
        if retries >= max_retries / 2:
            self.driver.refresh()
            time.sleep(5)
    raise Exception(...)        # line 366: INSIDE the while body
```
Every path through the loop body either returns (the `try` succeeded) or
reaches the `raise` at line 366, so the loop body executes at most once:
on the first exception the wrapper sleeps once, possibly refreshes
(`retries = 1 >= max_retries / 2`, float division), and raises the terminal
exception without ever re-invoking `func`.  Should `max_retries <= 0`, the
loop is not entered and the wrapper returns `None`. -/

/-- Events the wrapper performs between attempts. -/
inductive RetryEvent where
  | delayedSleep
  | refresh
  deriving Repr, DecidableEq

/-- Result of one call of the wrapped operation: the value returned, the
number of times `func` was invoked, and the sleep/refresh events.
`Except.error` is the exception propagated out of the wrapper;
`Except.ok none` is the implicit `None` return when the loop is skipped. -/
structure RetryResult (α : Type) where
  result : Except String (Option α)
  attempts : ℕ
  events : List RetryEvent
  deriving Repr

/-- Embedding of the `smart_retry` wrapper body (src/a.py lines 352-367);
`op i` is the outcome of invocation number `i` of the wrapped operation
(`Except.error ()` models a raised exception).  See the section comment:
the while loop body always returns or raises, hence the single unfolding. -/
def smart_retry {α : Type} (op : ℕ → Except Unit α) (max_retries : ℕ) : RetryResult α :=
  if 0 < max_retries then
    match op 0 with
    | Except.ok a => ⟨Except.ok (some a), 1, []⟩
    | Except.error _ =>
        let events := [RetryEvent.delayedSleep] ++
          (if (max_retries : ℚ) / 2 ≤ (1 : ℚ) then [RetryEvent.refresh] else [])
        ⟨Except.error "exception after max_retries attempts", 1, events⟩
  else ⟨Except.ok none, 0, []⟩

/-! ## Session manager `manage_session` (src/a.py lines 1339-1384)

All driver / pickle operations inside the `try` are modelled by flags of a
`SessionEnv`; an exception raised by one of them is caught by the outer
`except Exception` handler, which returns `False`.  The result type is
`Except String (Option Bool)` so that a propagated exception is
representable; the definition shows that no branch produces one. -/

/-- External conditions of one `manage_session` call. -/
structure SessionEnv where
  /-- `self.session_path.exists()` (line 1355). -/
  file_exists : Bool
  /-- `pickle.dump(...)` of the save branch raises (line 1349). -/
  save_raises : Bool
  /-- one of `driver.get` / `pickle.load` / `add_cookie` / `refresh`
  of the load branch raises (lines 1359-1367). -/
  load_step_raises : Bool
  /-- `driver.find_elements(...)` raises (line 1373). -/
  find_elements_raises : Bool
  /-- the login-button list of line 1373 is non-empty. -/
  login_buttons_present : Bool
  deriving Repr, DecidableEq

/-- Embedding of `manage_session` (src/a.py lines 1339-1384).
`Except.ok (some b)` is a `return b`; `Except.ok none` is the implicit
`None` return when `action` is neither `'save'` nor `'load'`. -/
def manage_session (action : String) (env : SessionEnv) : Except String (Option Bool) :=
  if action = "save" then
    if env.save_raises then Except.ok (some false) else Except.ok (some true)
  else if action = "load" then
    if env.file_exists = false then Except.ok (some false)
    else if env.load_step_raises then Except.ok (some false)
    else if env.find_elements_raises then Except.ok (some true)
    else if env.login_buttons_present then Except.ok (some false)
    else Except.ok (some true)
  else Except.ok none

/-! ## Python `str.replace` on code points

`account_last_actions[...] = action.replace('tweet', 'tweets')
.replace('comment', 'comments').replace('follow', 'follows')
.replace('retweet', 'retweets')` (src/a.py line 4689).  Python's
`str.replace` substitutes every non-overlapping occurrence left to right;
`replaceAux` implements exactly that on the code-point list, with a fuel
argument (the length of the subject) making the recursion structural. -/

/-- Left-to-right non-overlapping replacement of `pat` by `rep`; `fuel`
bounds the number of consumed code points (callers pass the subject's
length, which suffices because every step consumes at least one). -/
def replaceAux (pat rep : List Char) : ℕ → List Char → List Char
  | 0, s => s
  | _ + 1, [] => []
  | fuel + 1, c :: rest =>
      if pat.isPrefixOf (c :: rest) then
        rep ++ replaceAux pat rep fuel ((c :: rest).drop pat.length)
      else c :: replaceAux pat rep fuel rest

/-- Python `s.replace(pat, rep)` on Lean strings. -/
def pyReplace (s pat rep : String) : String :=
  ⟨replaceAux pat.data rep.data s.data.length s.data⟩

/-- The value stored into `account_last_actions[account.username]` after
dispatching `action` (src/a.py line 4689). -/
def record_key (action : String) : String :=
  pyReplace (pyReplace (pyReplace (pyReplace action "tweet" "tweets")
    "comment" "comments") "follow" "follows") "retweet" "retweets"

/-! ## Action selection (src/a.py lines 4593-4689)

`last` is `account_last_actions.get(account.username)` (`none` models
Python's `None`); `progress` is `cycle_progress`; the three day-part
booleans come from `datetime.now().hour` (lines 4588-4591). -/

/-- The action-type list of the primary, window-constrained pass
(src/a.py line 4597).  `comment_likes` is absent, so the `elif
action_type == 'comment_likes'` arm at line 4644 is dead code. -/
def primary_types : List String :=
  ["tweets", "comments", "follows", "retweets", "tweet_analysis", "strategy",
    "quote_tweet"]

/-- The action-type list of the fallback pass (src/a.py line 4650),
which adds `comment_likes`. -/
def fallback_types : List String := primary_types ++ ["comment_likes"]

/-- The `elif` chain mapping an activity key to the action name appended to
`available_actions` (src/a.py lines 4630-4645 and 4653-4668). -/
def action_name (t : String) : String :=
  if t = "tweets" then "tweet"
  else if t = "comments" then "comment"
  else if t = "follows" then "follow"
  else if t = "retweets" then "retweet"
  else if t = "tweet_analysis" then "tweet_analysis"
  else if t = "strategy" then "strategy"
  else if t = "quote_tweet" then "quote_tweet"
  else if t = "comment_likes" then "comment_likes"
  else t

/-- The day-part test for `tweet_analysis` (src/a.py lines 4613-4615):
`(is_morning and morning_done is False) or (is_afternoon and
afternoon_done is False) or (is_evening and evening_done is False)`. -/
def analysis_slot_ok (acts : Activities) (is_morning is_afternoon is_evening : Bool) : Prop :=
  (is_morning = true ∧ acts.morning_done = false) ∨
  (is_afternoon = true ∧ acts.afternoon_done = false) ∨
  (is_evening = true ∧ acts.evening_done = false)

instance (acts : Activities) (m a e : Bool) :
    Decidable (analysis_slot_ok acts m a e) := by
  unfold analysis_slot_ok
  infer_instance

/-- `window_start <= cycle_progress <= window_end` for some window of the
list (src/a.py lines 4622-4626, the loop setting `in_time_window`). -/
def in_window (windows : List (ℚ × ℚ)) (progress : ℚ) : Prop :=
  ∃ w ∈ windows, w.1 ≤ progress ∧ progress ≤ w.2

instance (windows : List (ℚ × ℚ)) (progress : ℚ) :
    Decidable (in_window windows progress) := by
  unfold in_window
  infer_instance

/-- The guard under which the primary pass appends `action_name t`
(src/a.py lines 4597-4645): limit not reached, not the previous action,
day-part slot acceptable for `tweet_analysis`, and inside a time window. -/
def primary_ok (acts : Activities) (last : Option String) (progress : ℚ)
    (is_morning is_afternoon is_evening : Bool) (t : String) : Prop :=
  ¬((acts.act t).limit ≤ (acts.act t).count) ∧
  ¬(last = some t) ∧
  ¬(t = "tweet_analysis" ∧
      ¬analysis_slot_ok acts is_morning is_afternoon is_evening) ∧
  in_window (acts.act t).windows progress

instance (acts : Activities) (last : Option String) (progress : ℚ)
    (m a e : Bool) (t : String) :
    Decidable (primary_ok acts last progress m a e t) := by
  unfold primary_ok
  infer_instance

/-- The primary, window-constrained `available_actions`
(src/a.py lines 4594-4645): the loop with `continue`s is the fold
appending `action_name t` exactly when `primary_ok` holds. -/
def primary_available (acts : Activities) (last : Option String) (progress : ℚ)
    (is_morning is_afternoon is_evening : Bool) : List String :=
  primary_types.foldl (fun avail t =>
    if primary_ok acts last progress is_morning is_afternoon is_evening t then
      avail ++ [action_name t]
    else avail) []

/-- The guard of the fallback pass (src/a.py line 4652):
`count < limit and account_last_actions.get(username) != action_type`. -/
def fallback_ok (acts : Activities) (last : Option String) (t : String) : Prop :=
  (acts.act t).count < (acts.act t).limit ∧ ¬(last = some t)

instance (acts : Activities) (last : Option String) (t : String) :
    Decidable (fallback_ok acts last t) := by
  unfold fallback_ok
  infer_instance

/-- The fallback `available_actions` ignoring time windows
(src/a.py lines 4648-4668). -/
def fallback_available (acts : Activities) (last : Option String) : List String :=
  fallback_types.foldl (fun avail t =>
    if fallback_ok acts last t then avail ++ [action_name t] else avail) []

/-- The final candidate list the scheduler draws from
(src/a.py lines 4594-4671): the primary list, or on emptiness the fallback
list; if both are empty the round is skipped (lines 4674-4677). -/
def available_actions (acts : Activities) (last : Option String) (progress : ℚ)
    (is_morning is_afternoon is_evening : Bool) : List String :=
  let p := primary_available acts last progress is_morning is_afternoon is_evening
  if p = [] then fallback_available acts last else p

/-! ## Dispatch bookkeeping (src/a.py lines 4701-4811)

The selected action is executed inside `try ... except Exception` (lines
4701 and 4809).  `DispatchEnv` packs the externally determined conditions
of the dispatch: the boolean result of the principal bot call (`.exc`
models a raised exception, caught by the outer handler, for `comment`,
`quote_tweet` and `comment_likes` by the inner one), the `hasattr` probes,
the emptiness tests of the `tweet` branch and the `random.randint(2, 4)`
draw of the `follow` branch. -/

/-- Outcome of the principal bot call of a dispatch. -/
inductive CallResult where
  | ok
  | fail
  | exc
  deriving Repr, DecidableEq

/-- External conditions of one dispatch. -/
structure DispatchEnv where
  result : CallResult
  has_attr : Bool
  /-- `tweet_suggestions and len(tweet_suggestions) > 0` (line 4706). -/
  suggestions_nonempty : Bool
  /-- `tweet_messages and len(tweet_messages) > 0` (line 4716). -/
  ai_messages_nonempty : Bool
  /-- `random.randint(2, 4)` of the follow branch (line 4741). -/
  follows_draw : ℕ
  deriving Repr, DecidableEq

/-- Embedding of the dispatch bookkeeping (src/a.py lines 4701-4806): the
effect of executing `action` on the activity record.  Every branch mutates
`count` and `last_action` only after its success test, except `strategy`
(lines 4766-4775), which increments unconditionally once the `hasattr`
probe passes — a `False` return of `ai_driven_casino_strategy` still
consumes quota.  In the `follow` branch, `follows_per_session =
min(randint(2, 4), limit - count)` (line 4741); the scheduler only
dispatches `follow` with `count < limit`, where ℕ and Python subtraction
agree. -/
def apply_action (acts : Activities) (action : String) (env : DispatchEnv)
    (now : ℚ) : Activities :=
  if action = "tweet" then
    if env.suggestions_nonempty then
      match env.result with
      | CallResult.ok => { acts with tweets := acts.tweets.bump 1 now }
      | _ => acts
    else if env.ai_messages_nonempty then
      match env.result with
      | CallResult.ok => { acts with tweets := acts.tweets.bump 1 now }
      | _ => acts
    else acts
  else if action = "comment" then
    if env.has_attr then
      match env.result with
      | CallResult.ok => { acts with comments := acts.comments.bump 1 now }
      | _ => acts
    else acts
  else if action = "follow" then
    match env.result with
    | CallResult.ok =>
        { acts with follows :=
            acts.follows.bump (min env.follows_draw (acts.follows.limit - acts.follows.count)) now }
    | _ => acts
  else if action = "retweet" then
    match env.result with
    | CallResult.ok => { acts with retweets := acts.retweets.bump 1 now }
    | _ => acts
  else if action = "tweet_analysis" then
    match env.result with
    | CallResult.ok => { acts with tweet_analysis := acts.tweet_analysis.bump 1 now }
    | _ => acts
  else if action = "strategy" then
    if env.has_attr then
      match env.result with
      | CallResult.exc => acts
      | _ => { acts with strategy := acts.strategy.bump 1 now }
    else acts
  else if action = "quote_tweet" then
    if env.has_attr then
      match env.result with
      | CallResult.ok => { acts with quote_tweet := acts.quote_tweet.bump 1 now }
      | _ => acts
    else acts
  else if action = "comment_likes" then
    if env.has_attr then
      match env.result with
      | CallResult.ok => { acts with comment_likes := acts.comment_likes.bump 1 now }
      | _ => acts
    else acts
  else acts

/-! ## Contest-tweet blocks (src/a.py lines 4820-4830)

Two consecutive blocks, both guarded by `cycle_progress >= 0.4 and
activities['contest_tweet']['count'] < 1 and strftime('%A') == 'Tuesday'`;
the first posts directly, the second first checks `bot.check_rate_limits()`.
Neither consults `limit` (drawn in `[0, 1]` at line 4457) and neither sets
`last_action`. -/

/-- One contest block: the outer guard `cycle_progress >= 0.4 and
count < 1 and strftime('%A') == 'Tuesday'` followed by the posting call
(`ok`), whose success increments the count. -/
def contest_block (acts : Activities) (progress : ℚ) (is_tuesday ok : Bool) :
    Activities :=
  if (0.4 : ℚ) ≤ progress ∧ acts.contest_tweet.count < 1 ∧ is_tuesday = true then
    if ok = true then
      { acts with contest_tweet := { acts.contest_tweet with
          count := acts.contest_tweet.count + 1 } }
    else acts
  else acts

/-- Embedding of the two consecutive contest blocks.  `post1_ok` /
`post2_ok` are the boolean results of the two `post_contest_tweet` calls
and `rate_ok` that of `check_rate_limits`, which guards the second call
in a nested `if` (success of the second block needs both). -/
def contest_step (acts : Activities) (progress : ℚ) (is_tuesday : Bool)
    (post1_ok rate_ok post2_ok : Bool) : Activities :=
  contest_block (contest_block acts progress is_tuesday post1_ok)
    progress is_tuesday (rate_ok && post2_ok)

/-! ## AI tweet generation (src/a.py lines 1044-1250)

Tweet texts are modelled as code-point lists (`PyStr`), matching Python's
`len`, slicing and concatenation exactly. -/

/-- Python string: a sequence of code points. -/
abbrev PyStr := List Char

/-- Python `str.strip()`: remove leading and trailing whitespace. -/
def pyStrip (s : PyStr) : PyStr :=
  ((s.dropWhile Char.isWhitespace).reverse.dropWhile Char.isWhitespace).reverse

/-- Python `str.split(sep)` for a one-character separator;
`splitOnChar sep []` is `[[]]`, as `''.split(sep)` is `['']`. -/
def splitOnChar (sep : Char) : List Char → List (List Char)
  | [] => [[]]
  | c :: rest =>
      match splitOnChar sep rest with
      | [] => if c = sep then [[], []] else [[c]]
      | h :: t => if c = sep then [] :: h :: t else (c :: h) :: t

/-- Python `sep.join(l)`. -/
def pyJoin (sep : PyStr) (l : List PyStr) : PyStr :=
  List.intercalate sep l

/-- One iteration of the response-parsing loop of
`generate_ai_betting_tweets` (src/a.py lines 1152-1162).  The state is
`(tweets, current_tweet)`.  Every statement that assigns a non-empty value
to `current_tweet` (lines 1164-1176) is commented out in the source, so the
non-blank branch leaves the state unchanged (the `re.sub` result assigned
to the local `line` at line 1162 is dead) and the accumulated list can only
ever stay empty. -/
def parse_step (st : List PyStr × PyStr) (line : PyStr) : List PyStr × PyStr :=
  let line := pyStrip line
  if line = [] then
    if st.2 ≠ [] then (st.1 ++ [st.2], []) else st
  else st

/-- The parsing of the generated text into candidate tweets
(src/a.py lines 1143-1159): strip, split on newlines, fold `parse_step`. -/
def parse_generated (generated_text : PyStr) : List PyStr :=
  ((splitOnChar (Char.ofNat 10) (pyStrip generated_text)).foldl parse_step ([], [])).1

/-- `f"Bonuslar: {', '.join(bonus_info)}" if bonus_info else ""`
(src/a.py line 1234). -/
def bonus_text_of (bonuslar : List PyStr) : PyStr :=
  if bonuslar ≠ [] then "Bonuslar: ".data ++ pyJoin ", ".data bonuslar else []

/-- `f"Kampanyalar: {', '.join(promotions)}" if promotions else ""`
(src/a.py line 1235). -/
def promo_text_of (kampanyalar : List PyStr) : PyStr :=
  if kampanyalar ≠ [] then "Kampanyalar: ".data ++ pyJoin ", ".data kampanyalar
  else []

/-- `betting_info.get('pr_mesaji', [""]).pop(0) if betting_info.get('pr_mesaji') else ""`
(src/a.py line 1231). -/
def pr_message_of (pr_mesaji : List PyStr) : PyStr :=
  match pr_mesaji with
  | [] => []
  | m :: _ => m

/-- The three site-specific templates (src/a.py lines 1237-1241). -/
def site_templates (sn bonus_text promo_text pr_message : PyStr) : List PyStr :=
  [ "🔥 ".data ++ sn ++ "\x27de bugünün en yüksek oranlı maçları burada! ".data ++
      bonus_text ++ " Hemen üye ol, ilk yatırımına %100 bonus kazan! [Link] 18+ #SorumluBahis".data,
    "🎰 ".data ++ sn ++ " hafta sonu jackpot fırsatı! 50.000 TL\x27lik büyük ödül seni bekliyor. ".data ++
      promo_text ++ " Hemen katıl, şansını dene! [Link] 18+ #Casino #SorumluBahis".data,
    "⚽ ".data ++ sn ++ "\x27de akşamın maçları için canlı bahis heyecanı başlıyor! ".data ++
      pr_message ++ " Yüksek oranlar ve özel promosyonlar için tıkla! [Link] 18+ #SorumluBahis".data ]

/-- The three default templates (src/a.py lines 1244-1248). -/
def default_templates : List PyStr :=
  [ "🔥 Bugünün en yüksek oranlı maçları burada! Hemen üye ol, ilk yatırımına %100 bonus kazan! [Link] 18+ #SorumluBahis".data,
    "🎰 Hafta sonu jackpot fırsatı! 50.000 TL\x27lik büyük ödül seni bekliyor. Hemen katıl, şansını dene! [Link] 18+ #Casino #SorumluBahis".data,
    "⚽ Akşamın maçları için canlı bahis heyecanı başlıyor! Yüksek oranlar ve özel promosyonlar için tıkla! [Link] 18+ #SorumluBahis".data ]

/-- Embedding of `generate_tweets` (src/a.py lines 1221-1250).  On an empty
candidate list it reloads the site info (here: the `site_name`, `bonuslar`,
`kampanyalar`, `pr_mesaji` parameters) and recomputes `has_site_info =
bool(betting_info) and len(betting_info) > 2` (passed as the computed
boolean `has_site_info`); `site_name.getD` models
`betting_info.get('site_name', 'sitemiz')`. -/
def generate_tweets (tweets : List PyStr) (has_site_info : Bool)
    (site_name : Option PyStr) (bonuslar kampanyalar pr_mesaji : List PyStr) :
    List PyStr :=
  if tweets = [] then
    if has_site_info then
      site_templates (site_name.getD "sitemiz".data) (bonus_text_of bonuslar)
        (promo_text_of kampanyalar) (pr_message_of pr_mesaji)
    else default_templates
  else tweets

/-- The character-limit check of the validation loop (src/a.py lines
1198-1199): `if len(tweet) > 280: tweet = tweet[:277] + "..."`. -/
def truncate_280 (t : PyStr) : PyStr :=
  if 280 < t.length then t.take 277 ++ "...".data else t

/-- The validation loop (src/a.py lines 1196-1203): truncate and append
each candidate, breaking once `num_tweets` entries are collected (the
break test runs after the append). -/
def first_pass (num_tweets : ℕ) : List PyStr → List PyStr → List PyStr
  | [], valid => valid
  | t :: ts, valid =>
      let valid := valid ++ [truncate_280 t]
      if num_tweets ≤ valid.length then valid else first_pass num_tweets ts valid

/-- The padding loop (src/a.py lines 1206-1208): `while len(valid) <
num_tweets: valid.append(tweets[len(valid) % len(tweets)])` — note it
appends the raw candidate, not its truncation.  The fuel argument
(`num_tweets` at the call site) bounds the iterations; each one grows
`valid` by one, so the bound suffices.  On an empty candidate list Python
would raise `ZeroDivisionError`; that is unreachable, as `generate_tweets`
always yields three templates, and is modelled by `List.getD`. -/
def pad_loop (tweets : List PyStr) (num_tweets : ℕ) : ℕ → List PyStr → List PyStr
  | 0, valid => valid
  | fuel + 1, valid =>
      if valid.length < num_tweets then
        pad_loop tweets num_tweets fuel
          (valid ++ [tweets.getD (valid.length % tweets.length) []])
      else valid

/-- Embedding of `generate_ai_betting_tweets` (src/a.py lines 1044-1210)
after a successful generation call: `generated_text` is
`response.text`, the site parameters are the content of
`load_betting_site_info()`, and the result is the returned tweet list. -/
def generate_ai_betting_tweets (num_tweets : ℕ) (generated_text : PyStr)
    (has_site_info : Bool) (site_name : Option PyStr)
    (bonuslar kampanyalar pr_mesaji : List PyStr) : List PyStr :=
  let tweets := parse_generated generated_text
  let tweets := generate_tweets tweets has_site_info site_name bonuslar
    kampanyalar pr_mesaji
  let valid := first_pass num_tweets tweets []
  (pad_loop tweets num_tweets num_tweets valid).take num_tweets

/-! ## Concrete states and inputs used by the witnesses and counterexamples -/

/-- A concrete activity record inside the documented initialization ranges
of src/a.py lines 4402-4464 (counts `0`, limits drawn from the stated
`randint` ranges, a full-cycle window, `min_action_gap = 20 * 60`). -/
def sampleState : Activities where
  tweets := ⟨0, 5, [(0, 1)], 0⟩
  comments := ⟨0, 10, [(0, 1)], 0⟩
  follows := ⟨0, 7, [(0, 1)], 0⟩
  retweets := ⟨0, 2, [(0, 1)], 0⟩
  tweet_analysis := ⟨0, 2, [(0, 1)], 0⟩
  morning_done := false
  afternoon_done := false
  evening_done := false
  strategy := ⟨0, 2, [(0, 1)], 0⟩
  quote_tweet := ⟨0, 3, [(0, 1)], 0⟩
  comment_likes := ⟨0, 3, [(0, 1)], 0⟩
  contest_tweet := ⟨0, 1, [(0, 1)], 0⟩
  unfollow_done := false
  cycle_start := 0
  min_action_gap := 20 * 60

/-- `sampleState` with the legal draw `limit = 0` for `contest_tweet`
(`random.randint(0, 1)` at src/a.py line 4457). -/
def contest0State : Activities :=
  { sampleState with contest_tweet := ⟨0, 0, [(0, 1)], 0⟩ }

/-- `sampleState` after one successful `comment_likes` dispatch recorded at
time `999` (src/a.py lines 4797-4799). -/
def gapState : Activities :=
  { sampleState with comment_likes := ⟨1, 3, [(0, 1)], 999⟩ }

/-- `sampleState` after one successful `tweet` dispatch recorded at time
`100`. -/
def tweetedState : Activities :=
  { sampleState with tweets := ⟨1, 5, [(0, 1)], 100⟩ }

/-- An operation that raises on its first two invocations and succeeds on
the third: the subject of the retry scenario. -/
def failsTwice : ℕ → Except Unit ℕ :=
  fun i => if i < 2 then Except.error () else Except.ok 42

/-- A 300-character bonus entry, a legal content of the
`bonuslar` list loaded from the site-info file. -/
def longBonus : PyStr := List.replicate 300 'a'

/-- The `count ≤ limit` invariant over the eight action types whose
increments are guarded by their limit (every type except `contest_tweet`). -/
def Inv8 (acts : Activities) : Prop :=
  acts.tweets.count ≤ acts.tweets.limit ∧
  acts.comments.count ≤ acts.comments.limit ∧
  acts.follows.count ≤ acts.follows.limit ∧
  acts.retweets.count ≤ acts.retweets.limit ∧
  acts.tweet_analysis.count ≤ acts.tweet_analysis.limit ∧
  acts.strategy.count ≤ acts.strategy.limit ∧
  acts.quote_tweet.count ≤ acts.quote_tweet.limit ∧
  acts.comment_likes.count ≤ acts.comment_likes.limit

instance (acts : Activities) : Decidable (Inv8 acts) := by
  unfold Inv8
  infer_instance

/-! # Theorems settling the claims -/

/-- C1: the claim states that when the scheduler observes
`cycle_elapsed >= CYCLE_TIME`, rollover resets every count and
`last_action` to 0, re-randomizes every limit, regenerates the windows,
clears the flags and sets a new `cycle_start`.  In the code the rollover
body indexes `activities[activity]` with the unbound name `activity`
(src/a.py lines 4523-4542), so the branch raises `NameError` before any
write: no reset ever happens and the exception aborts the main loop. -/
theorem claim_C1_rollover_raises (now : ℚ) (acts : Activities)
    (h : CYCLE_TIME ≤ now - acts.cycle_start) :
    rollover_check now acts =
      Except.error "NameError: name activity is not defined" := by
  simp [rollover_check, rollover, h]

/-- Witness for C1 at a concrete account state observed exactly one cycle
length after its `cycle_start`. -/
theorem claim_C1_witness :
    rollover_check 108000 sampleState =
      Except.error "NameError: name activity is not defined" :=
  claim_C1_rollover_raises 108000 sampleState
    (by norm_num [CYCLE_TIME, sampleState])

/-- C2: the claim states that with `max_retries = 3`, an operation failing
twice then succeeding is returned successfully after exactly 2 delayed
retries with a refresh before the 2nd.  In the code the terminal `raise`
(src/a.py line 366) sits inside the `while` body, so after the first
failure the wrapper sleeps once and raises without ever re-invoking the
operation: one single attempt, an exception as result, and no refresh
(`1 >= 3 / 2` is false). -/
theorem claim_C2_retry_raises :
    (smart_retry failsTwice 3).result =
      Except.error "exception after max_retries attempts" ∧
    (smart_retry failsTwice 3).attempts = 1 ∧
    (smart_retry failsTwice 3).events = [RetryEvent.delayedSleep] := by
  refine ⟨rfl, rfl, ?_⟩
  have h : ¬((3 : ℚ) / 2 ≤ (1 : ℚ)) := by norm_num
  simp [smart_retry, failsTwice, h]

/-- C3: the claim states that no two consecutively dispatched actions of an
account share an action type, the previous type being excluded from the
eligible set.  The code stores the previous action through a chain of
`str.replace` calls (src/a.py line 4689) that maps `'retweet'` to
`'retweetss'` — a key that never equals the activity key `'retweets'`
compared against at lines 4606 and 4652 — so immediately after a retweet
the action `'retweet'` is offered again: two consecutive dispatches of the
same type are possible.  (The same slip affects `tweet_analysis`,
`quote_tweet` and `comment_likes`.) -/
theorem claim_C3_consecutive_retweet :
    record_key "retweet" = "retweetss" ∧
    record_key "tweet_analysis" = "tweets_analysis" ∧
    record_key "quote_tweet" = "quote_tweets" ∧
    record_key "comment_likes" = "comments_likes" ∧
    "retweet" ∈ available_actions sampleState (some (record_key "retweet"))
      1 false false true := by
  refine ⟨rfl, rfl, rfl, rfl, ?_⟩
  decide

/-- C9: `manage_session('load')` on an account whose session file does not
exist returns `False` without raising (src/a.py lines 1353-1356): the
`exists()` test precedes every driver and pickle operation. -/
theorem claim_C9_load_missing (env : SessionEnv)
    (h : env.file_exists = false) :
    manage_session "load" env = Except.ok (some false) := by
  simp [manage_session, h]

/-- Witness for C9 at a concrete environment with no persisted session. -/
theorem claim_C9_witness :
    manage_session "load" ⟨false, false, false, false, false⟩ =
      Except.ok (some false) :=
  claim_C9_load_missing ⟨false, false, false, false, false⟩ rfl

/-! ## Projection lemmas for the dictionary accessor -/

theorem act_tweets (a : Activities) : a.act "tweets" = a.tweets := rfl

theorem act_comments (a : Activities) : a.act "comments" = a.comments := rfl

theorem act_follows (a : Activities) : a.act "follows" = a.follows := rfl

theorem act_retweets (a : Activities) : a.act "retweets" = a.retweets := rfl

theorem act_tweet_analysis (a : Activities) :
    a.act "tweet_analysis" = a.tweet_analysis := rfl

theorem act_strategy (a : Activities) : a.act "strategy" = a.strategy := rfl

theorem act_quote_tweet (a : Activities) :
    a.act "quote_tweet" = a.quote_tweet := rfl

theorem act_comment_likes (a : Activities) :
    a.act "comment_likes" = a.comment_likes := rfl

theorem act_contest_tweet (a : Activities) :
    a.act "contest_tweet" = a.contest_tweet := rfl

/-- C4 counterexample: a `retweet` dispatch whose bot call returns `False`
at time `1000` leaves the whole activity record unchanged — in particular
`last_action` stays `0`, it is not updated to `1000` as the claim states
(src/a.py lines 4749-4754: both writes sit under the success test). -/
theorem claim_C4_counterexample :
    apply_action sampleState "retweet"
      ⟨CallResult.fail, true, true, true, 2⟩ 1000 = sampleState ∧
    sampleState.retweets.last_action = 0 ∧ (0 : ℚ) ≠ 1000 := by
  refine ⟨rfl, rfl, by norm_num⟩

set_option maxHeartbeats 1000000 in
/-- C4 (amended): a dispatched action that raises updates neither `count`
nor `last_action`; one that returns `False` likewise leaves the record
unchanged — except `strategy` (src/a.py lines 4766-4775), which increments
`count` and sets `last_action` regardless of the call's boolean result
once the `hasattr` probe passes.  Quota and gap timestamp are always
written together. -/
theorem claim_C4_failure_semantics (acts : Activities) (action : String)
    (env : DispatchEnv) (now : ℚ) :
    (env.result = CallResult.exc → apply_action acts action env now = acts) ∧
    (env.result = CallResult.fail →
      ¬(action = "strategy" ∧ env.has_attr = true) →
      apply_action acts action env now = acts) ∧
    (env.result = CallResult.fail → env.has_attr = true →
      (apply_action acts "strategy" env now).strategy.count =
        acts.strategy.count + 1 ∧
      (apply_action acts "strategy" env now).strategy.last_action = now) := by
  obtain ⟨res, ha, sug, ai, fd⟩ := env
  refine ⟨?_, ?_, ?_⟩
  · rintro rfl
    simp only [apply_action]
    split_ifs <;> rfl
  · rintro rfl hne
    simp only [apply_action]
    split_ifs <;> first | rfl | simp_all
  · rintro rfl hha
    simp only at hha
    subst hha
    exact ⟨rfl, rfl⟩

/-- Witness for C4 at a concrete failing `comment` dispatch. -/
theorem claim_C4_witness :
    apply_action sampleState "comment"
      ⟨CallResult.fail, true, true, true, 2⟩ 1000 = sampleState :=
  (claim_C4_failure_semantics sampleState "comment"
      ⟨CallResult.fail, true, true, true, 2⟩ 1000).2.1 rfl (by decide)

/-- C5 counterexample: with the legal draw `limit = 0` for `contest_tweet`
(`random.randint(0, 1)`, src/a.py line 4457), a Tuesday contest post at
`cycle_progress >= 0.4` is gated only by `count < 1` (line 4820), so the
count reaches `1 > 0 = limit`: the invariant `count ≤ limit` fails at the
very next observation point. -/
theorem claim_C5_counterexample :
    (contest_step contest0State 1 true true true true).contest_tweet.count = 1 ∧
    (contest_step contest0State 1 true true true true).contest_tweet.limit = 0 ∧
    ¬((contest_step contest0State 1 true true true true).contest_tweet.count ≤
        (contest_step contest0State 1 true true true true).contest_tweet.limit) := by
  have h1 : (contest_step contest0State 1 true true true true).contest_tweet.count = 1 := by
    norm_num [contest_step, contest_block, contest0State, sampleState]
  have h2 : (contest_step contest0State 1 true true true true).contest_tweet.limit = 0 := by
    norm_num [contest_step, contest_block, contest0State, sampleState]
  refine ⟨h1, h2, ?_⟩
  rw [h1, h2]
  norm_num

/-! ## Characterization of the candidate list (towards the amended C5) -/

/-- The appending loop over a key list is a filter followed by a map. -/
theorem foldl_append_filter (p : String → Prop) [DecidablePred p]
    (f : String → String) :
    ∀ (l acc : List String),
      l.foldl (fun avail t => if p t then avail ++ [f t] else avail) acc =
        acc ++ (l.filter (fun t => decide (p t))).map f := by
  intro l
  induction l with
  | nil => intro acc; simp
  | cons h t ih =>
      intro acc
      by_cases hp : p h <;> simp [hp, ih]

/-- Every member of the primary pass comes from a key satisfying its guard. -/
theorem mem_primary_available {acts : Activities} {last : Option String}
    {progress : ℚ} {m a e : Bool} {x : String}
    (hx : x ∈ primary_available acts last progress m a e) :
    ∃ t ∈ primary_types, primary_ok acts last progress m a e t ∧
      x = action_name t := by
  unfold primary_available at hx
  rw [foldl_append_filter] at hx
  simp only [List.nil_append, List.mem_map, List.mem_filter,
    decide_eq_true_eq] at hx
  obtain ⟨t, ⟨ht, hok⟩, rfl⟩ := hx
  exact ⟨t, ht, hok, rfl⟩

/-- Every member of the fallback pass comes from a key satisfying its guard. -/
theorem mem_fallback_available {acts : Activities} {last : Option String}
    {x : String} (hx : x ∈ fallback_available acts last) :
    ∃ t ∈ fallback_types, fallback_ok acts last t ∧ x = action_name t := by
  unfold fallback_available at hx
  rw [foldl_append_filter] at hx
  simp only [List.nil_append, List.mem_map, List.mem_filter,
    decide_eq_true_eq] at hx
  obtain ⟨t, ⟨ht, hok⟩, rfl⟩ := hx
  exact ⟨t, ht, hok, rfl⟩

/-- Every offered action targets a key whose count is below its limit. -/
theorem mem_available_count_lt {acts : Activities} {last : Option String}
    {progress : ℚ} {m a e : Bool} {x : String}
    (hx : x ∈ available_actions acts last progress m a e) :
    ∃ t ∈ fallback_types, (acts.act t).count < (acts.act t).limit ∧
      x = action_name t := by
  unfold available_actions at hx
  by_cases hp : primary_available acts last progress m a e = []
  · rw [if_pos hp] at hx
    obtain ⟨t, ht, hok, rfl⟩ := mem_fallback_available hx
    exact ⟨t, ht, hok.1, rfl⟩
  · rw [if_neg hp] at hx
    obtain ⟨t, ht, hok, rfl⟩ := mem_primary_available hx
    exact ⟨t, List.mem_append_left _ ht, Nat.lt_of_not_le hok.1, rfl⟩

/-! ## Per-field bump lemmas (towards the amended C5) -/

theorem inv8_bump_tweets (acts : Activities) (hinv : Inv8 acts) (now : ℚ)
    (h : acts.tweets.count < acts.tweets.limit) :
    Inv8 { acts with tweets := acts.tweets.bump 1 now } :=
  ⟨h, hinv.2⟩

theorem inv8_bump_comments (acts : Activities) (hinv : Inv8 acts) (now : ℚ)
    (h : acts.comments.count < acts.comments.limit) :
    Inv8 { acts with comments := acts.comments.bump 1 now } :=
  ⟨hinv.1, h, hinv.2.2⟩

theorem inv8_bump_follows (acts : Activities) (hinv : Inv8 acts) (now : ℚ)
    (fd : ℕ) (h : acts.follows.count < acts.follows.limit) :
    Inv8 { acts with follows :=
      acts.follows.bump (min fd (acts.follows.limit - acts.follows.count)) now } := by
  refine ⟨hinv.1, hinv.2.1, ?_, hinv.2.2.2⟩
  have hm : min fd (acts.follows.limit - acts.follows.count) ≤
      acts.follows.limit - acts.follows.count := Nat.min_le_right _ _
  show acts.follows.count + min fd (acts.follows.limit - acts.follows.count) ≤
    acts.follows.limit
  omega

theorem inv8_bump_retweets (acts : Activities) (hinv : Inv8 acts) (now : ℚ)
    (h : acts.retweets.count < acts.retweets.limit) :
    Inv8 { acts with retweets := acts.retweets.bump 1 now } :=
  ⟨hinv.1, hinv.2.1, hinv.2.2.1, h, hinv.2.2.2.2⟩

theorem inv8_bump_tweet_analysis (acts : Activities) (hinv : Inv8 acts) (now : ℚ)
    (h : acts.tweet_analysis.count < acts.tweet_analysis.limit) :
    Inv8 { acts with tweet_analysis := acts.tweet_analysis.bump 1 now } :=
  ⟨hinv.1, hinv.2.1, hinv.2.2.1, hinv.2.2.2.1, h, hinv.2.2.2.2.2⟩

theorem inv8_bump_strategy (acts : Activities) (hinv : Inv8 acts) (now : ℚ)
    (h : acts.strategy.count < acts.strategy.limit) :
    Inv8 { acts with strategy := acts.strategy.bump 1 now } :=
  ⟨hinv.1, hinv.2.1, hinv.2.2.1, hinv.2.2.2.1, hinv.2.2.2.2.1, h,
    hinv.2.2.2.2.2.2⟩

theorem inv8_bump_quote_tweet (acts : Activities) (hinv : Inv8 acts) (now : ℚ)
    (h : acts.quote_tweet.count < acts.quote_tweet.limit) :
    Inv8 { acts with quote_tweet := acts.quote_tweet.bump 1 now } :=
  ⟨hinv.1, hinv.2.1, hinv.2.2.1, hinv.2.2.2.1, hinv.2.2.2.2.1,
    hinv.2.2.2.2.2.1, h, hinv.2.2.2.2.2.2.2⟩

theorem inv8_bump_comment_likes (acts : Activities) (hinv : Inv8 acts) (now : ℚ)
    (h : acts.comment_likes.count < acts.comment_likes.limit) :
    Inv8 { acts with comment_likes := acts.comment_likes.bump 1 now } :=
  ⟨hinv.1, hinv.2.1, hinv.2.2.1, hinv.2.2.2.1, hinv.2.2.2.2.1,
    hinv.2.2.2.2.2.1, hinv.2.2.2.2.2.2.1, h⟩

set_option maxHeartbeats 1000000 in
/-- The dispatch bookkeeping preserves `count ≤ limit` for the eight
guarded types whenever the action came out of the candidate list (whose
guards require `count < limit`), and never touches `contest_tweet`. -/
theorem apply_action_inv (acts : Activities) (action : String)
    (env : DispatchEnv) (now : ℚ) (hinv : Inv8 acts)
    (hsel : ∃ t ∈ fallback_types, (acts.act t).count < (acts.act t).limit ∧
      action = action_name t) :
    Inv8 (apply_action acts action env now) ∧
    (apply_action acts action env now).contest_tweet = acts.contest_tweet := by
  obtain ⟨t, ht, hlt, rfl⟩ := hsel
  obtain ⟨res, ha, sug, ai, fd⟩ := env
  simp only [fallback_types, primary_types, List.mem_append,
    List.mem_cons, List.mem_singleton, List.not_mem_nil, or_false] at ht
  rcases ht with (rfl | rfl | rfl | rfl | rfl | rfl | rfl) | rfl
  · cases res <;> cases sug <;> cases ai <;>
      first
        | exact ⟨hinv, rfl⟩
        | exact ⟨inv8_bump_tweets acts hinv now hlt, rfl⟩
  · cases res <;> cases ha <;>
      first
        | exact ⟨hinv, rfl⟩
        | exact ⟨inv8_bump_comments acts hinv now hlt, rfl⟩
  · cases res <;>
      first
        | exact ⟨hinv, rfl⟩
        | exact ⟨inv8_bump_follows acts hinv now fd hlt, rfl⟩
  · cases res <;>
      first
        | exact ⟨hinv, rfl⟩
        | exact ⟨inv8_bump_retweets acts hinv now hlt, rfl⟩
  · cases res <;>
      first
        | exact ⟨hinv, rfl⟩
        | exact ⟨inv8_bump_tweet_analysis acts hinv now hlt, rfl⟩
  · cases res <;> cases ha <;>
      first
        | exact ⟨hinv, rfl⟩
        | exact ⟨inv8_bump_strategy acts hinv now hlt, rfl⟩
  · cases res <;> cases ha <;>
      first
        | exact ⟨hinv, rfl⟩
        | exact ⟨inv8_bump_quote_tweet acts hinv now hlt, rfl⟩
  · cases res <;> cases ha <;>
      first
        | exact ⟨hinv, rfl⟩
        | exact ⟨inv8_bump_comment_likes acts hinv now hlt, rfl⟩

/-- One contest block leaves every non-contest field and the contest limit
unchanged and pushes the contest count at most to `1`. -/
theorem contest_block_bound (acts : Activities) (progress : ℚ) (tu ok : Bool) :
    (contest_block acts progress tu ok).tweets = acts.tweets ∧
    (contest_block acts progress tu ok).comments = acts.comments ∧
    (contest_block acts progress tu ok).follows = acts.follows ∧
    (contest_block acts progress tu ok).retweets = acts.retweets ∧
    (contest_block acts progress tu ok).tweet_analysis = acts.tweet_analysis ∧
    (contest_block acts progress tu ok).strategy = acts.strategy ∧
    (contest_block acts progress tu ok).quote_tweet = acts.quote_tweet ∧
    (contest_block acts progress tu ok).comment_likes = acts.comment_likes ∧
    (contest_block acts progress tu ok).contest_tweet.limit =
      acts.contest_tweet.limit ∧
    (contest_block acts progress tu ok).contest_tweet.count ≤
      max acts.contest_tweet.count 1 := by
  unfold contest_block
  split_ifs with h1 h2 <;>
    refine ⟨rfl, rfl, rfl, rfl, rfl, rfl, rfl, rfl, rfl, ?_⟩
  · have hc := h1.2.1
    dsimp only
    omega
  · exact Nat.le_max_left _ _
  · exact Nat.le_max_left _ _

/-- The two contest blocks leave every non-contest field and the contest
limit unchanged and push the contest count at most to `1`. -/
theorem contest_step_bound (acts : Activities) (progress : ℚ)
    (tu p1 r p2 : Bool) :
    (contest_step acts progress tu p1 r p2).tweets = acts.tweets ∧
    (contest_step acts progress tu p1 r p2).comments = acts.comments ∧
    (contest_step acts progress tu p1 r p2).follows = acts.follows ∧
    (contest_step acts progress tu p1 r p2).retweets = acts.retweets ∧
    (contest_step acts progress tu p1 r p2).tweet_analysis = acts.tweet_analysis ∧
    (contest_step acts progress tu p1 r p2).strategy = acts.strategy ∧
    (contest_step acts progress tu p1 r p2).quote_tweet = acts.quote_tweet ∧
    (contest_step acts progress tu p1 r p2).comment_likes = acts.comment_likes ∧
    (contest_step acts progress tu p1 r p2).contest_tweet.limit =
      acts.contest_tweet.limit ∧
    (contest_step acts progress tu p1 r p2).contest_tweet.count ≤
      max acts.contest_tweet.count 1 := by
  obtain ⟨a1, a2, a3, a4, a5, a6, a7, a8, a9, a10⟩ :=
    contest_block_bound acts progress tu p1
  obtain ⟨b1, b2, b3, b4, b5, b6, b7, b8, b9, b10⟩ :=
    contest_block_bound (contest_block acts progress tu p1) progress tu
      (r && p2)
  unfold contest_step
  refine ⟨b1.trans a1, b2.trans a2, b3.trans a3, b4.trans a4, b5.trans a5,
    b6.trans a6, b7.trans a7, b8.trans a8, b9.trans a9, ?_⟩
  refine le_trans b10 ?_
  exact max_le a10 (le_max_right _ _)

/-- C5 (amended): `count ≤ limit` is preserved at every observation point
for the eight action types whose increments are guarded by their limit
(every type except `contest_tweet`); for `contest_tweet` only
`count ≤ 1` is maintained, which exceeds the limit when the limit was
drawn `0`. -/
theorem claim_C5_quota_invariant (acts : Activities) (last : Option String)
    (pd progress now : ℚ) (m a e tu p1 r p2 : Bool) (env : DispatchEnv)
    (action : String)
    (hmem : action ∈ available_actions acts last pd m a e)
    (hinv : Inv8 acts) (hc : acts.contest_tweet.count ≤ 1) :
    Inv8 (contest_step (apply_action acts action env now) progress tu p1 r p2) ∧
    (contest_step (apply_action acts action env now) progress tu p1 r p2).contest_tweet.count ≤ 1 := by
  obtain ⟨hinv', hcontest⟩ :=
    apply_action_inv acts action env now hinv (mem_available_count_lt hmem)
  obtain ⟨e1, e2, e3, e4, e5, e6, e7, e8, _, hcnt⟩ :=
    contest_step_bound (apply_action acts action env now) progress tu p1 r p2
  constructor
  · unfold Inv8 at hinv' ⊢
    rw [e1, e2, e3, e4, e5, e6, e7, e8]
    exact hinv'
  · rw [hcontest] at hcnt
    exact le_trans hcnt (max_le hc le_rfl)

/-- Witness for C5: one successful `retweet` dispatch followed by the
contest blocks, from the concrete initial state. -/
theorem claim_C5_witness :
    Inv8 (contest_step (apply_action sampleState "retweet"
        ⟨CallResult.ok, true, true, true, 2⟩ 50) 1 true true true true) ∧
    (contest_step (apply_action sampleState "retweet"
        ⟨CallResult.ok, true, true, true, 2⟩ 50) 1 true true true true).contest_tweet.count ≤ 1 :=
  claim_C5_quota_invariant sampleState none 1 1 50 false false true true true
    true true ⟨CallResult.ok, true, true, true, 2⟩ "retweet" (by decide)
    (by decide) (by decide)

/-- C6 counterexample: after a `comment_likes` action recorded at time
`999`, the eligibility max (src/a.py lines 4561-4562) ignores
`comment_likes`, so one second later the account is already `ELIGIBLE`
although the elapsed time since its most recent recorded action is far
below `min_action_gap = 20 * 60`: the next dispatch can violate the
minimum-gap spacing the claim states for all action types. -/
theorem claim_C6_counterexample :
    account_eligible 1000 gapState ∧
    gapState.comment_likes.last_action = 999 ∧
    (1000 : ℚ) - gapState.comment_likes.last_action < gapState.min_action_gap := by
  refine ⟨by decide, rfl, ?_⟩
  norm_num [gapState, sampleState]

/-- C6 (amended): the eligibility max ranges only over the seven types
`tweets, comments, follows, retweets, tweet_analysis, strategy,
quote_tweet`; for those, an `ELIGIBLE` verdict does guarantee that at
least `min_action_gap` elapsed since each recorded `last_action`
(`comment_likes` and `contest_tweet` are excluded, and contest posts never
set `last_action` at all). -/
theorem claim_C6_gap_seven_types (now : ℚ) (acts : Activities)
    (helig : account_eligible now acts) :
    ∀ t ∈ primary_types, 0 < (acts.act t).last_action →
      acts.min_action_gap ≤ now - (acts.act t).last_action := by
  intro t ht hpos
  have hle : (acts.act t).last_action ≤ last_any_action acts := by
    fin_cases ht <;>
      simp [act_tweets, act_comments, act_follows, act_retweets,
        act_tweet_analysis, act_strategy, act_quote_tweet, last_any_action,
        le_max_iff]
  have hpos2 : 0 < last_any_action acts := lt_of_lt_of_le hpos hle
  have hgap := helig hpos2
  linarith

/-- Witness for C6: an account whose only recorded action is a tweet at
time `100`, observed eligible at time `1300`. -/
theorem claim_C6_witness :
    tweetedState.min_action_gap ≤
      (1300 : ℚ) - (tweetedState.act "tweets").last_action :=
  claim_C6_gap_seven_types 1300 tweetedState
    (by intro h; norm_num [last_any_action, tweetedState, sampleState, max_def])
    "tweets" (by decide) (by norm_num [act_tweets, tweetedState, sampleState])

/-- C7 counterexample: the post-dispatch sweep (src/a.py lines 4813-4818)
fires already at `cycle_progress >= 0.933`, so an account observed at
`0.94` of its cycle — strictly below the claimed `0.95` threshold —
triggers the unfollow sweep and sets the per-cycle flag. -/
theorem claim_C7_counterexample :
    post_sweep_triggers (0.94 * CYCLE_TIME) sampleState ∧
    0.94 * CYCLE_TIME < CYCLE_TIME * 0.95 ∧
    (post_sweep (0.94 * CYCLE_TIME) sampleState true).unfollow_done = true := by
  have hdiv : (0.933 : ℚ) ≤ (0.94 * CYCLE_TIME) / CYCLE_TIME := by
    rw [mul_div_assoc, div_self (show (CYCLE_TIME : ℚ) ≠ 0 by norm_num [CYCLE_TIME])]
    norm_num
  refine ⟨⟨hdiv, rfl⟩, by norm_num [CYCLE_TIME], ?_⟩
  unfold post_sweep
  rw [if_pos ⟨hdiv, rfl⟩]
  rfl

/-- C7 (amended): with the per-cycle flag unset, the pre-dispatch sweep
fires exactly at elapsed `≥ 0.95 × CYCLE_TIME` and the post-dispatch sweep
additionally fires for the just-dispatched account at elapsed
`≥ 0.933 × CYCLE_TIME`; once the flag is set neither sweep runs again in
the cycle, the sweeps change nothing but the flag (they run in addition
to, not instead of, the selected action), and the flag is only set when
the sweep call reports success. -/
theorem claim_C7_sweep_triggers (now elapsed : ℚ) (acts : Activities)
    (ha hs : Bool) (hdone : acts.unfollow_done = false) :
    (pre_sweep_triggers now acts ↔ CYCLE_TIME * 0.95 ≤ now - acts.cycle_start) ∧
    (post_sweep_triggers elapsed acts ↔ (0.933 : ℚ) * CYCLE_TIME ≤ elapsed) ∧
    pre_sweep now { acts with unfollow_done := true } ha hs =
      { acts with unfollow_done := true } ∧
    post_sweep elapsed { acts with unfollow_done := true } hs =
      { acts with unfollow_done := true } ∧
    (∀ t, (pre_sweep now acts ha hs).act t = acts.act t ∧
      (post_sweep elapsed acts hs).act t = acts.act t) ∧
    ((pre_sweep now acts ha hs).unfollow_done = true → ha = true ∧ hs = true) := by
  have hCT : (0 : ℚ) < CYCLE_TIME := by norm_num [CYCLE_TIME]
  refine ⟨?_, ?_, ?_, ?_, ?_, ?_⟩
  · unfold pre_sweep_triggers
    simp [hdone]
  · unfold post_sweep_triggers
    rw [le_div_iff₀ hCT]
    simp [hdone]
  · simp [pre_sweep]
  · simp [post_sweep]
  · intro t
    constructor
    · unfold pre_sweep
      split_ifs <;> rfl
    · unfold post_sweep
      split_ifs <;> rfl
  · unfold pre_sweep
    split_ifs with h1 h2
    · intro _
      exact h2
    · intro hcontra
      rw [hdone] at hcontra
      cases hcontra
    · intro hcontra
      rw [hdone] at hcontra
      cases hcontra

/-- Witness for C7 at the concrete initial state, observed at elapsed
time `104000`. -/
theorem claim_C7_witness :
    pre_sweep_triggers 104000 sampleState ↔
      CYCLE_TIME * 0.95 ≤ 104000 - sampleState.cycle_start :=
  (claim_C7_sweep_triggers 104000 102600 sampleState true true rfl).1

/-- C8: with `num_windows` omitted (drawn in `[3, 5]`, src/a.py line 4378)
and the two uniform draws within their documented ranges, the generated
window set has between 3 and 5 windows and every pair satisfies
`0 ≤ start < end ≤ 1`, the end being clamped to `1.0` when the drawn end
exceeds it (src/a.py lines 4384-4385). -/
theorem claim_C8_windows (n : ℕ) (u v : ℕ → ℚ) (hn3 : 3 ≤ n) (hn5 : n ≤ 5)
    (hu : ∀ i, i < n → 0 ≤ u i ∧ u i ≤ (1 / n) * 0.4)
    (hv : ∀ i, i < n → 0.1 ≤ v i ∧ v i ≤ 0.15) :
    (create_time_windows n u v).length = n ∧
    3 ≤ (create_time_windows n u v).length ∧
    (create_time_windows n u v).length ≤ 5 ∧
    ∀ w ∈ create_time_windows n u v, 0 ≤ w.1 ∧ w.1 < w.2 ∧ w.2 ≤ 1 := by
  have hlen : (create_time_windows n u v).length = n := by
    simp [create_time_windows]
  refine ⟨hlen, by rw [hlen]; exact hn3, by rw [hlen]; exact hn5, ?_⟩
  intro w hw
  simp only [create_time_windows, List.mem_map, List.mem_range] at hw
  obtain ⟨i, hi, rfl⟩ := hw
  have hN : (0 : ℚ) < n := by
    have h0 : 0 < n := by omega
    exact_mod_cast h0
  have hinv : (0 : ℚ) < 1 / n := by positivity
  obtain ⟨hu0, hu1⟩ := hu i hi
  obtain ⟨hv0, hv1⟩ := hv i hi
  have hiN : (i : ℚ) ≤ (n : ℚ) - 1 := by
    have h1 : (i : ℚ) + 1 ≤ n := by exact_mod_cast hi
    linarith
  have hstart0 : 0 ≤ (i : ℚ) * (1 / n) + u i := by
    have h2 : (0 : ℚ) ≤ (i : ℚ) * (1 / n) := by positivity
    linarith
  have hstart1 : (i : ℚ) * (1 / n) + u i < 1 := by
    have h1 : (i : ℚ) * (1 / n) ≤ ((n : ℚ) - 1) * (1 / n) :=
      mul_le_mul_of_nonneg_right hiN (le_of_lt hinv)
    have h2 : ((n : ℚ) - 1) * (1 / n) = 1 - 1 / n := by
      field_simp
    linarith
  dsimp only
  refine ⟨hstart0, ?_, ?_⟩
  · split_ifs with hcl
    · exact hstart1
    · linarith
  · split_ifs with hcl
    · exact le_rfl
    · linarith

/-- Witness for C8 with three windows and the extremal draws
`u = 0`, `v = 0.1`. -/
theorem claim_C8_witness :
    (create_time_windows 3 (fun _ => 0) (fun _ => 0.1)).length = 3 ∧
    3 ≤ (create_time_windows 3 (fun _ => 0) (fun _ => 0.1)).length ∧
    (create_time_windows 3 (fun _ => 0) (fun _ => 0.1)).length ≤ 5 ∧
    ∀ w ∈ create_time_windows 3 (fun _ => 0) (fun _ => 0.1),
      0 ≤ w.1 ∧ w.1 < w.2 ∧ w.2 ≤ 1 :=
  claim_C8_windows 3 (fun _ => 0) (fun _ => 0.1) (by norm_num) (by norm_num)
    (fun i _ => ⟨le_rfl, by norm_num⟩) (fun i _ => ⟨le_rfl, by norm_num⟩)

set_option maxRecDepth 40000 in
/-- C10 counterexample: with `num_tweets = 4` and a site-info file whose
bonus entry has 300 characters, the first candidate template exceeds 280
characters; the validation pass truncates its copy, but the padding loop
(src/a.py lines 1206-1208) appends the raw candidate, so the returned
list's 4th tweet has 432 characters — the claim's 280-character bound
fails. -/
theorem claim_C10_counterexample :
    (generate_ai_betting_tweets 4 [] true (some "Bet".data)
      [longBonus] [] []).length = 4 ∧
    ∃ t ∈ generate_ai_betting_tweets 4 [] true (some "Bet".data)
      [longBonus] [] [], 280 < t.length := by
  constructor
  · rfl
  · decide

/-- The truncation of the validation pass yields at most 280 characters. -/
theorem truncate_280_length (t : PyStr) : (truncate_280 t).length ≤ 280 := by
  unfold truncate_280
  split_ifs with h
  · have h3 : ("...".data : List Char).length = 3 := rfl
    simp only [List.length_append, List.length_take, h3]
    omega
  · omega

/-- Members of the validation pass are truncations of candidates (or were
already accumulated). -/
theorem first_pass_mem (num : ℕ) :
    ∀ (l acc : List PyStr) (t : PyStr), t ∈ first_pass num l acc →
      t ∈ acc ∨ ∃ s ∈ l, t = truncate_280 s := by
  intro l
  induction l with
  | nil =>
      intro acc t ht
      exact Or.inl ht
  | cons s rest ih =>
      intro acc t ht
      simp only [first_pass] at ht
      by_cases hb : num ≤ (acc ++ [truncate_280 s]).length
      · rw [if_pos hb] at ht
        rcases List.mem_append.mp ht with h | h
        · exact Or.inl h
        · exact Or.inr ⟨s, by simp, by simpa using h⟩
      · rw [if_neg hb] at ht
        rcases ih (acc ++ [truncate_280 s]) t ht with h | ⟨s2, hs2, rfl⟩
        · rcases List.mem_append.mp h with h1 | h1
          · exact Or.inl h1
          · exact Or.inr ⟨s, by simp, by simpa using h1⟩
        · exact Or.inr ⟨s2, by simp [hs2], rfl⟩

/-- The padding loop reaches the requested count whenever its fuel covers
the missing entries. -/
theorem pad_loop_length (tweets : List PyStr) (num : ℕ) :
    ∀ (fuel : ℕ) (valid : List PyStr), num ≤ valid.length + fuel →
      num ≤ (pad_loop tweets num fuel valid).length := by
  intro fuel
  induction fuel with
  | zero =>
      intro valid h
      simpa [pad_loop] using h
  | succ f ih =>
      intro valid h
      unfold pad_loop
      by_cases hlt : valid.length < num
      · rw [if_pos hlt]
        apply ih
        simp only [List.length_append, List.length_singleton]
        omega
      · rw [if_neg hlt]
        omega

/-- Members of the padding loop's result are accumulated entries or raw
candidates (the `[]` case covers the unreachable empty candidate list). -/
theorem pad_loop_mem (tweets : List PyStr) (num : ℕ) :
    ∀ (fuel : ℕ) (valid : List PyStr) (t : PyStr),
      t ∈ pad_loop tweets num fuel valid →
      t ∈ valid ∨ t ∈ tweets ∨ t = [] := by
  intro fuel
  induction fuel with
  | zero =>
      intro valid t ht
      exact Or.inl (by simpa [pad_loop] using ht)
  | succ f ih =>
      intro valid t ht
      unfold pad_loop at ht
      by_cases hlt : valid.length < num
      · rw [if_pos hlt] at ht
        rcases ih _ t ht with h | h
        · rcases List.mem_append.mp h with h1 | h1
          · exact Or.inl h1
          · have heq : t = tweets.getD (valid.length % tweets.length) [] := by
              simpa using h1
            by_cases htw : tweets = []
            · subst htw
              right; right
              simpa [List.getD] using heq
            · right; left
              have hmod : valid.length % tweets.length < tweets.length :=
                Nat.mod_lt _ (List.length_pos.mpr htw)
              rw [heq, List.getD_eq_getElem tweets [] hmod]
              exact List.getElem_mem hmod
        · exact Or.inr h
      · rw [if_neg hlt] at ht
        exact Or.inl ht

/-- C10 (amended): for `num_tweets ≥ 1` and a generation call that returns
without exception, exactly `num_tweets` tweets are returned; every entry
collected by the validation pass is at most 280 characters (long
candidates truncated to their first 277 plus `...`), but entries added by
the padding loop are raw candidates of `generate_tweets` and may exceed
280 characters. -/
theorem claim_C10_tweet_lengths (num : ℕ) (hnum : 1 ≤ num) (txt : PyStr)
    (hs : Bool) (sn : Option PyStr) (b k p : List PyStr) :
    (generate_ai_betting_tweets num txt hs sn b k p).length = num ∧
    ∀ t ∈ generate_ai_betting_tweets num txt hs sn b k p,
      t.length ≤ 280 ∨
        t ∈ generate_tweets (parse_generated txt) hs sn b k p := by
  constructor
  · have h1 : num ≤ (pad_loop
        (generate_tweets (parse_generated txt) hs sn b k p) num num
        (first_pass num (generate_tweets (parse_generated txt) hs sn b k p)
          [])).length :=
      pad_loop_length _ num num _ (by omega)
    unfold generate_ai_betting_tweets
    simp only [List.length_take]
    omega
  · intro t ht
    unfold generate_ai_betting_tweets at ht
    have ht2 := List.take_subset _ _ ht
    rcases pad_loop_mem _ num num _ t ht2 with h | h | rfl
    · rcases first_pass_mem num _ [] t h with h0 | ⟨s, _, rfl⟩
      · cases h0
      · exact Or.inl (truncate_280_length s)
    · exact Or.inr h
    · exact Or.inl (by simp)

/-- Witness for C10 with a single requested tweet and no site info. -/
theorem claim_C10_witness :
    (generate_ai_betting_tweets 1 [] false none [] [] []).length = 1 ∧
    ∀ t ∈ generate_ai_betting_tweets 1 [] false none [] [] [],
      t.length ≤ 280 ∨
        t ∈ generate_tweets (parse_generated []) false none [] [] [] :=
  claim_C10_tweet_lengths 1 le_rfl [] false none [] [] []

end K
